import Mathlib

/-!
Shallow embedding of the statement-execution and transaction-coordination
core of the `prisma-wa-sqlite-adapter` repository.

The embedding follows the TypeScript sources:
* `src/wa-sqlite-adapter.ts` — `PrismaWaSQLiteAdapter` (transaction
  coordinator: `startTransaction`, `commitTransaction`,
  `rollbackTransaction`, `dispose`), `WaSQLiteQueryable.performIOModel`,
  `getColumnTypeEnums`, `mapRow`, `convertData`.
* `src/better-sqlite3-compat.ts` — `WaSQLiteStatement` (reader
  classification, `get`, `getColumnValue`, `finalize`).

The WASM SQLite engine is external; it is modelled as an oracle giving the
outcome of each engine call (`exec`, `prepare_v2`, `bind_*`, `step`).
JavaScript values appearing in rows and parameters are modelled by the
inductive `JSValue`; JavaScript numbers are modelled as rationals (enough
to express `Number.isInteger` and the safe-integer comparisons).
-/

/-- JavaScript runtime values as they occur in this code base.
`num` models a JS number (as an exact rational), `u8` a `Uint8Array`,
`jsarr` a plain JS array of bytes (as produced by `Array.from` on a
`Uint8Array`), `date` a `Date` carrying its ISO string. -/
inductive JSValue where
  | num (q : ℚ)
  | str (s : String)
  | bigint (n : ℤ)
  | u8 (bs : List ℕ)
  | jsarr (bs : List ℕ)
  | date (iso : String)
  | jsbool (b : Bool)
  | null
  | undef
deriving DecidableEq, Repr

/-- Outcome of one engine `exec` call: success, or a thrown `Error`
carrying its message (wa-sqlite throws on non-OK result codes). -/
inductive ExecResult where
  | ok
  | err (msg : String)
deriving DecidableEq, Repr

/-- The Prisma `IsolationLevel` union type (all members are non-empty
strings, hence truthy in the `if (isolationLevel && ...)` test). -/
inductive IsolationLevel where
  | readUncommitted
  | readCommitted
  | repeatableRead
  | snapshot
  | serializable
deriving DecidableEq, Repr

/-- Errors a coordinator method can throw: a `DriverAdapterError` built
by the adapter itself (carrying its `kind`), or a propagated engine
error (carrying the engine's message). -/
inductive TxError where
  | adapterError (kind : String)
  | engineError (msg : String)
deriving DecidableEq, Repr

/-- The mutable transaction-coordination fields of `PrismaWaSQLiteAdapter`
(`private inTransaction = false; private transactionDepth = 0`).
`transactionDepth` is a JS number used integrally, modelled as `ℤ`. -/
structure AdapterState where
  inTransaction : Bool
  transactionDepth : ℤ
deriving DecidableEq, Repr

/-- Result of running one coordinator method: the state when the method
returned or threw, the engine `exec` calls issued (in order), and the
thrown error, if any (`none` means the promise resolved). -/
structure Outcome where
  state : AdapterState
  calls : List String
  thrown : Option TxError
deriving DecidableEq, Repr

/-- `String.includes` of JavaScript: substring containment. -/
def jsIncludes (s pat : String) : Bool :=
  (List.range (s.data.length + 1)).any (fun i => pat.data.isPrefixOf (s.data.drop i))

/-- `PrismaWaSQLiteAdapter.startTransaction` (wa-sqlite-adapter.ts,
lines 431–466).  `engine sql` gives the outcome of `sqlite3.exec(db, sql)`.
The isolation-level guard runs before any engine call; in the nested
branch `this.transactionDepth++` happens before the `SAVEPOINT` exec. -/
def startTransaction (engine : String → ExecResult)
    (isolationLevel : Option IsolationLevel) (s : AdapterState) : Outcome :=
  match isolationLevel with
  | some lvl =>
    if lvl ≠ IsolationLevel.serializable then
      { state := s, calls := [], thrown := some (TxError.adapterError "InvalidIsolationLevel") }
    else
      startTransactionBody engine s
  | none => startTransactionBody engine s
where
  /-- The body after the isolation-level guard. -/
  startTransactionBody (engine : String → ExecResult) (s : AdapterState) : Outcome :=
    if !s.inTransaction then
      match engine "BEGIN" with
      | ExecResult.ok =>
        { state := { inTransaction := true, transactionDepth := 1 },
          calls := ["BEGIN"], thrown := none }
      | ExecResult.err m =>
        { state := s, calls := ["BEGIN"], thrown := some (TxError.engineError m) }
    else
      let depth := s.transactionDepth + 1
      let s1 : AdapterState := { s with transactionDepth := depth }
      let savepointName := "prisma_savepoint_" ++ toString depth
      match engine ("SAVEPOINT " ++ savepointName) with
      | ExecResult.ok =>
        { state := s1, calls := ["SAVEPOINT " ++ savepointName], thrown := none }
      | ExecResult.err m =>
        { state := s1, calls := ["SAVEPOINT " ++ savepointName],
          thrown := some (TxError.engineError m) }

/-- `PrismaWaSQLiteAdapter.commitTransaction` (wa-sqlite-adapter.ts,
lines 468–502).  At depth 1 a `COMMIT` error whose message includes
"no transaction is active" is swallowed; at depth > 1 a failed
`RELEASE SAVEPOINT` is only warned about and the depth still drops. -/
def commitTransaction (engine : String → ExecResult) (s : AdapterState) : Outcome :=
  if s.transactionDepth = 1 then
    match engine "COMMIT" with
    | ExecResult.ok =>
      { state := { inTransaction := false, transactionDepth := 0 },
        calls := ["COMMIT"], thrown := none }
    | ExecResult.err m =>
      if !jsIncludes m "no transaction is active" then
        { state := s, calls := ["COMMIT"], thrown := some (TxError.engineError m) }
      else
        { state := { inTransaction := false, transactionDepth := 0 },
          calls := ["COMMIT"], thrown := none }
  else if s.transactionDepth > 1 then
    let savepointName := "prisma_savepoint_" ++ toString s.transactionDepth
    let sql := "RELEASE SAVEPOINT " ++ savepointName
    match engine sql with
    | ExecResult.ok =>
      { state := { s with transactionDepth := s.transactionDepth - 1 },
        calls := [sql], thrown := none }
    | ExecResult.err _ =>
      { state := { s with transactionDepth := s.transactionDepth - 1 },
        calls := [sql], thrown := none }
  else
    { state := s, calls := [], thrown := none }

/-- `PrismaWaSQLiteAdapter.rollbackTransaction` (wa-sqlite-adapter.ts,
lines 504–539).  Symmetric to `commitTransaction`; at depth > 1 it issues
`ROLLBACK TO SAVEPOINT` followed by `RELEASE SAVEPOINT`. -/
def rollbackTransaction (engine : String → ExecResult) (s : AdapterState) : Outcome :=
  if s.transactionDepth = 1 then
    match engine "ROLLBACK" with
    | ExecResult.ok =>
      { state := { inTransaction := false, transactionDepth := 0 },
        calls := ["ROLLBACK"], thrown := none }
    | ExecResult.err m =>
      if !jsIncludes m "no transaction is active" then
        { state := s, calls := ["ROLLBACK"], thrown := some (TxError.engineError m) }
      else
        { state := { inTransaction := false, transactionDepth := 0 },
          calls := ["ROLLBACK"], thrown := none }
  else if s.transactionDepth > 1 then
    let savepointName := "prisma_savepoint_" ++ toString s.transactionDepth
    let sqlA := "ROLLBACK TO SAVEPOINT " ++ savepointName
    let sqlB := "RELEASE SAVEPOINT " ++ savepointName
    match engine sqlA with
    | ExecResult.ok =>
      match engine sqlB with
      | ExecResult.ok =>
        { state := { s with transactionDepth := s.transactionDepth - 1 },
          calls := [sqlA, sqlB], thrown := none }
      | ExecResult.err _ =>
        { state := { s with transactionDepth := s.transactionDepth - 1 },
          calls := [sqlA, sqlB], thrown := none }
    | ExecResult.err _ =>
      { state := { s with transactionDepth := s.transactionDepth - 1 },
        calls := [sqlA], thrown := none }
  else
    { state := s, calls := [], thrown := none }

/-- `PrismaWaSQLiteAdapter.dispose` (wa-sqlite-adapter.ts, lines 541–555):
if a transaction is open, issue `ROLLBACK` ignoring any error, then clear
both fields.  (The subsequent `release` callback closes the database and
does not touch the coordinator fields.) -/
def dispose (engine : String → ExecResult) (s : AdapterState) : Outcome :=
  if s.inTransaction then
    match engine "ROLLBACK" with
    | ExecResult.ok =>
      { state := { inTransaction := false, transactionDepth := 0 },
        calls := ["ROLLBACK"], thrown := none }
    | ExecResult.err _ =>
      { state := { inTransaction := false, transactionDepth := 0 },
        calls := ["ROLLBACK"], thrown := none }
  else
    { state := s, calls := [], thrown := none }

/-! ## Statement handle (`better-sqlite3-compat.ts`, `WaSQLiteStatement`) -/

/-- Reader/readonly classification computed in the `WaSQLiteStatement`
constructor (better-sqlite3-compat.ts, lines 98–111). -/
structure StatementFlags where
  reader : Bool
  readonly : Bool
deriving DecidableEq, Repr

/-- The constructor's flag computation:
`const trimmedSql = sql.trim().toUpperCase()` followed by the four
`startsWith` tests; `this.readonly = this.reader`.  JS `trim`,
`toUpperCase` and `startsWith` are modelled by Lean's `String.trim`,
`String.toUpper` and `String.startsWith` (they agree on ASCII SQL
text). -/
def WaSQLiteStatement.mkFlags (sql : String) : StatementFlags :=
  let trimmedSql := sql.trim.toUpper
  let reader := trimmedSql.startsWith "SELECT" ||
                trimmedSql.startsWith "WITH" ||
                trimmedSql.startsWith "VALUES" ||
                trimmedSql.startsWith "PRAGMA"
  { reader := reader, readonly := reader }

/-- The reader-token set named by the spec. -/
def readerTokens : List String := ["SELECT", "WITH", "VALUES", "PRAGMA"]

/-- One result column of a stepped row, as seen through the engine's
accessors: `column_name`, `column_type`, and the value each typed
accessor (`column_int`, `column_double`, `column_text`, `column_blob`)
would return for it.  SQLite type codes: INTEGER = 1, FLOAT = 2,
TEXT = 3, BLOB = 4, NULL = 5. -/
structure EngineCell where
  name : String
  ctype : ℤ
  intVal : ℤ
  doubleVal : ℚ
  textVal : String
  blobVal : List ℕ
deriving DecidableEq, Repr

/-- `WaSQLiteStatement.getColumnValue` (better-sqlite3-compat.ts,
lines 365–379): switch on `column_type`, reading through the matching
typed accessor; NULL and unknown codes yield `null`.  Note it takes no
account of `safeIntegersMode`. -/
def WaSQLiteStatement.getColumnValue (c : EngineCell) : JSValue :=
  if c.ctype = 1 then JSValue.num (c.intVal : ℚ)
  else if c.ctype = 2 then JSValue.num c.doubleVal
  else if c.ctype = 3 then JSValue.str c.textVal
  else if c.ctype = 4 then JSValue.u8 c.blobVal
  else JSValue.null

/-- The private mode flags of a `WaSQLiteStatement`. -/
structure StmtModes where
  pluckMode : Bool
  rawMode : Bool
  safeIntegersMode : Bool
deriving DecidableEq, Repr

/-- `WaSQLiteStatement.safeIntegers` (better-sqlite3-compat.ts,
lines 414–417): `this.safeIntegersMode = toggleState !== false`. -/
def WaSQLiteStatement.safeIntegers (m : StmtModes) (toggleState : Option Bool) : StmtModes :=
  { m with safeIntegersMode := decide (toggleState ≠ some false) }

/-- JavaScript object property assignment `o[k] = v`: an existing key is
overwritten in place (keeping its insertion position), a new key is
appended. -/
def jsObjSet (o : List (String × JSValue)) (k : String) (v : JSValue) :
    List (String × JSValue) :=
  if o.any (fun p => p.1 == k) then
    o.map (fun p => if p.1 == k then (k, v) else p)
  else
    o ++ [(k, v)]

/-- The default-mode row loop of `get`/`all`: build a JS object mapping
each column name to its value, in column order. -/
def jsObjOfRow (cells : List EngineCell) : List (String × JSValue) :=
  cells.foldl (fun o c => jsObjSet o c.name (WaSQLiteStatement.getColumnValue c)) []

/-- The JavaScript value returned by `WaSQLiteStatement.get`. -/
inductive GetResult where
  | undef
  | plucked (v : JSValue)
  | rawRow (vs : List JSValue)
  | objRow (kvs : List (String × JSValue))
deriving DecidableEq, Repr

/-- `WaSQLiteStatement.get` (better-sqlite3-compat.ts, lines 233–296).
`firstStep` is the outcome of the single `step` call: `some cells` when
it returned `SQLITE_ROW` (a stepped row always has at least one column),
`none` when it returned `SQLITE_DONE`.  On a row, materialize in the
active mode (pluck reads column 0; raw and default loop over
`column_count` columns); on `DONE`, return `undefined`. -/
def WaSQLiteStatement.get (m : StmtModes) (firstStep : Option (List EngineCell)) :
    GetResult :=
  match firstStep with
  | some cells =>
    if m.pluckMode then
      GetResult.plucked ((cells.head?).elim JSValue.null WaSQLiteStatement.getColumnValue)
    else if m.rawMode then
      GetResult.rawRow (cells.map WaSQLiteStatement.getColumnValue)
    else
      GetResult.objRow (jsObjOfRow cells)
  | none => GetResult.undef

/-- The nullable native-resource fields of a `WaSQLiteStatement`:
`this.stmt` (prepared-statement handle) and `this.str` (SQL string
buffer); `true` means non-null. -/
structure StmtResources where
  stmtNonNull : Bool
  strNonNull : Bool
deriving DecidableEq, Repr

/-- Native engine calls a statement can issue while managing its
resources (the subset relevant to acquisition and release). -/
inductive NativeCall where
  | strNewCall
  | prepareCall
  | bindCall (i : ℕ)
  | stepCall
  | finalizeCall
  | strFinishCall
deriving DecidableEq, Repr

/-- `WaSQLiteStatement.finalize` (better-sqlite3-compat.ts, lines
155–164): call the native `finalize` only when `this.stmt` is non-null,
then null it; call `str_finish` only when `this.str` is non-null, then
null it.  Returns the new resource state and the native calls issued. -/
def WaSQLiteStatement.finalize (r : StmtResources) : StmtResources × List NativeCall :=
  let step1 :=
    if r.stmtNonNull then
      ({ r with stmtNonNull := false }, [NativeCall.finalizeCall])
    else (r, ([] : List NativeCall))
  let step2 :=
    if step1.1.strNonNull then
      ({ step1.1 with strNonNull := false }, [NativeCall.strFinishCall])
    else (step1.1, ([] : List NativeCall))
  (step2.1, step1.2 ++ step2.2)

/-! ## Query executor (`wa-sqlite-adapter.ts`, `WaSQLiteQueryable.performIOModel`)

The parameterised path of `performIOModel` (lines 260–362; taken whenever the
query has at least one argument) acquires a SQL string buffer
(`str_new`) and a prepared statement (`prepare_v2`), binds the
parameters, steps, and releases both resources in a `finally` block:
`finalize(stmt)` when the local `stmt` is non-null and `str_finish(str)`
when the local `str` is non-null.  The engine is modelled by an oracle
(`PerfEngine`); the model records every native call issued. -/

/-- One `step` outcome scripted by the oracle: a row (with its cells),
`SQLITE_DONE`, or some other result code `c` (an error). -/
inductive StepItem where
  | rowItem (cells : List EngineCell)
  | doneItem
  | errItem (c : ℤ)
deriving DecidableEq, Repr

/-- Oracle for one `performIOModel` run: whether `prepare_v2` yields a
statement, which bind call (1-based) throws (with its message), the
column names the statement reports, the scripted `step` outcomes
(consumed in order; exhausted means `SQLITE_DONE`), and the value
`changes(db)` returns. -/
structure PerfEngine where
  prepareOk : Bool
  bindOutcome : ℕ → Option String
  columnNames : List String
  steps : List StepItem
  changes : ℤ

/-- The per-column switch of the row-fetch loop (wa-sqlite-adapter.ts,
lines 322–341), identical in structure to
`WaSQLiteStatement.getColumnValue`. -/
def performIOColumnValue (c : EngineCell) : JSValue :=
  if c.ctype = 1 then JSValue.num (c.intVal : ℚ)
  else if c.ctype = 2 then JSValue.num c.doubleVal
  else if c.ctype = 3 then JSValue.str c.textVal
  else if c.ctype = 4 then JSValue.u8 c.blobVal
  else JSValue.null

/-- The `cleanedArgs.forEach` bind loop (lines 276–297): bind parameters
`start, start+1, …` (1-based) while `remaining` parameters are left,
stopping at the first bind call that throws.  Returns the thrown
message (if any) and the bind calls issued. -/
def bindPhase (bindOutcome : ℕ → Option String) :
    (start : ℕ) → (remaining : ℕ) → Option String × List NativeCall
  | _, 0 => (none, [])
  | start, remaining + 1 =>
    match bindOutcome start with
    | some msg => (some msg, [NativeCall.bindCall start])
    | none =>
      let rest := bindPhase bindOutcome (start + 1) remaining
      (rest.1, NativeCall.bindCall start :: rest.2)

/-- The row-fetch loop of the query path (lines 317–349): call `step`,
collect rows while it returns `SQLITE_ROW`, then require `SQLITE_DONE`
(any other code throws `Error fetching results…`).  Returns the thrown
message (if any), the `step` calls issued, and the collected rows. -/
def queryStepLoop : List StepItem → Option String × List NativeCall × List (List EngineCell)
  | [] => (none, [NativeCall.stepCall], [])
  | StepItem.doneItem :: _ => (none, [NativeCall.stepCall], [])
  | StepItem.errItem c :: _ =>
    (some ("Error fetching results. Result code: " ++ toString c),
      [NativeCall.stepCall], [])
  | StepItem.rowItem cells :: rest =>
    let r := queryStepLoop rest
    (r.1, NativeCall.stepCall :: r.2.1, cells :: r.2.2)

/-- The value `performIOModel` resolves with: `[columnNames, rows]` on the
query path, `changes(db)` on the execute path. -/
inductive PerfValue where
  | queryData (columnNames : List String) (rows : List (List JSValue))
  | execChanges (n : ℤ)
deriving DecidableEq, Repr

/-- Result of the `try` body of the parameterised path: the thrown
message (if any), the resolved value (if none thrown), the native calls
issued so far, and whether the local `stmt` / `str` variables are
non-null when the `finally` block runs. -/
structure BodyOut where
  thrown : Option String
  value : Option PerfValue
  calls : List NativeCall
  stmtNonNull : Bool
  strNonNull : Bool

/-- The `try` body of `performIOModel`'s parameterised path (lines 264–352):
`str_new`, `prepare_v2` (throwing `Failed to prepare statement` when no
statement comes back), the bind loop, then either the single-`step`
execute path (lines 299–305, throwing unless the code is `SQLITE_DONE`
or `SQLITE_ROW`) or the row-fetch query path. -/
def performIOBody (eng : PerfEngine) (nParams : ℕ) (executeRaw : Bool) : BodyOut :=
  let calls0 := [NativeCall.strNewCall, NativeCall.prepareCall]
  if !eng.prepareOk then
    { thrown := some "Failed to prepare statement", value := none,
      calls := calls0, stmtNonNull := false, strNonNull := true }
  else
    let b := bindPhase eng.bindOutcome 1 nParams
    match b.1 with
    | some msg =>
      { thrown := some msg, value := none, calls := calls0 ++ b.2,
        stmtNonNull := true, strNonNull := true }
    | none =>
      if executeRaw then
        match eng.steps.headD StepItem.doneItem with
        | StepItem.errItem c =>
          { thrown := some ("Failed to execute statement. Result code: " ++ toString c),
            value := none, calls := calls0 ++ b.2 ++ [NativeCall.stepCall],
            stmtNonNull := true, strNonNull := true }
        | _ =>
          { thrown := none, value := some (PerfValue.execChanges eng.changes),
            calls := calls0 ++ b.2 ++ [NativeCall.stepCall],
            stmtNonNull := true, strNonNull := true }
      else
        let q := queryStepLoop eng.steps
        { thrown := q.1,
          value := if q.1 = none then
              some (PerfValue.queryData eng.columnNames
                (q.2.2.map (fun cells => cells.map performIOColumnValue)))
            else none,
          calls := calls0 ++ b.2 ++ q.2.1,
          stmtNonNull := true, strNonNull := true }

/-- `performIOModel`, parameterised path, with its `finally` block (lines
353–361): after the body — whether it resolved or threw — `finalize` is
called when `stmt` is non-null and `str_finish` when `str` is non-null.
Returns the thrown message (`none` = resolved) and the full trace of
native calls. -/
def performIOModel (eng : PerfEngine) (nParams : ℕ) (executeRaw : Bool) :
    Option String × List NativeCall :=
  let b := performIOBody eng nParams executeRaw
  (b.thrown,
    b.calls ++ (if b.stmtNonNull then [NativeCall.finalizeCall] else [])
            ++ (if b.strNonNull then [NativeCall.strFinishCall] else []))

/-! ## Result-set conversion (`wa-sqlite-adapter.ts`, lines 99–216) -/

/-- The Prisma `ColumnTypeEnum` tags used by this adapter. -/
inductive CType where
  | int32
  | int64
  | double
  | text
  | bytes
  | dateTime
  | booleanTag
deriving DecidableEq, Repr

/-- JavaScript object property assignment for the
`Record<string, ColumnTypeEnum>` built by `getColumnTypeEnums`: an
existing key is overwritten in place (keeping its insertion position),
a new key is appended. -/
def jsRecordSet (o : List (String × CType)) (k : String) (v : CType) :
    List (String × CType) :=
  if o.any (fun p => p.1 == k) then
    o.map (fun p => if p.1 == k then (k, v) else p)
  else
    o ++ [(k, v)]

/-- `Object.values`: the record's values in key insertion order. -/
def recordValues (o : List (String × CType)) : List CType := o.map (fun p => p.2)

/-- The per-value classification chain of `getColumnTypeEnums` (lines
115–139): null/undefined → Text; number → Int32 when integral else
Double; string → Text; bigint → Int64; Uint8Array or Array → Bytes;
Date → DateTime; boolean → Boolean; anything else → Text.
`Number.isInteger` on the rational model is `q.den = 1`. -/
def inferJsType (v : JSValue) : CType :=
  match v with
  | JSValue.null => CType.text
  | JSValue.undef => CType.text
  | JSValue.num q => if q.den = 1 then CType.int32 else CType.double
  | JSValue.str _ => CType.text
  | JSValue.bigint _ => CType.int64
  | JSValue.u8 _ => CType.bytes
  | JSValue.jsarr _ => CType.bytes
  | JSValue.date _ => CType.dateTime
  | JSValue.jsbool _ => CType.booleanTag

/-- `getColumnTypeEnums` (wa-sqlite-adapter.ts, lines 99–142).  With no
rows, every column name is assigned Text.  Otherwise each column name is
assigned the type inferred from `firstRow[index]` (an out-of-range index
reads `undefined`, classified Text).  The `if (!firstRow) return {}`
guard in the source is unreachable (a row is an array, always truthy).
The result is a JS object keyed by column *name*, so duplicate names
collapse onto one entry. -/
def getColumnTypeEnums (columnNames : List String) (rows : List (List JSValue)) :
    List (String × CType) :=
  match rows with
  | [] => columnNames.foldl (fun r n => jsRecordSet r n CType.text) []
  | firstRow :: _ =>
    columnNames.enum.foldl
      (fun r p =>
        jsRecordSet r p.2 (inferJsType ((firstRow.get? p.1).getD JSValue.undef)))
      []

/-- The `^\d4-\d2-\d2T\d2:\d2:\d2.\d3Z$` test of `mapRow` (line 160).
In the regex the `.` before the milliseconds matches any character. -/
def dateRegexTest (s : String) : Bool :=
  match s.data with
  | [y1, y2, y3, y4, h1, m1, m2, h2, d1, d2, t, hh1, hh2, c1, mi1, mi2, c2, s1, s2, _,
     ms1, ms2, ms3, z] =>
    y1.isDigit && y2.isDigit && y3.isDigit && y4.isDigit && h1 == '-' &&
    m1.isDigit && m2.isDigit && h2 == '-' && d1.isDigit && d2.isDigit &&
    t == 'T' && hh1.isDigit && hh2.isDigit && c1 == ':' && mi1.isDigit &&
    mi2.isDigit && c2 == ':' && s1.isDigit && s2.isDigit &&
    ms1.isDigit && ms2.isDigit && ms3.isDigit && z == 'Z'
  | _ => false

/-- The per-value conversion of `mapRow` (wa-sqlite-adapter.ts, lines
145–172), given `type = columnTypes[index]` (`none` when the index is
past the end of the array, i.e. JS `undefined`): null/undefined → null;
Bytes + plain array → `new Uint8Array(value)`; DateTime + ISO-looking
string → `new Date(value)`; Int64 + number → `BigInt(value)` (the
integrality guard mirrors `BigInt`'s domain — on a non-integral number
the JS call faults, which this total model leaves as the identity);
otherwise the value is returned unchanged. -/
def mapRowValue (t : Option CType) (value : JSValue) : JSValue :=
  if value = JSValue.null ∨ value = JSValue.undef then JSValue.null
  else
    match t, value with
    | some CType.bytes, JSValue.jsarr bs => JSValue.u8 bs
    | some CType.dateTime, JSValue.str s =>
      if dateRegexTest s then JSValue.date s else JSValue.str s
    | some CType.int64, JSValue.num q =>
      if q.den = 1 then JSValue.bigint q.num else JSValue.num q
    | _, v => v

/-- `mapRow` (wa-sqlite-adapter.ts, lines 144–173):
`row.map((value, index) => …)` with `type = columnTypes[index]`. -/
def mapRow (row : List JSValue) (columnTypes : List CType) : List JSValue :=
  row.enum.map (fun p => mapRowValue (columnTypes.get? p.1) p.2)

/-- The driver-adapter result set (`SqlResultSet`). -/
structure SqlResultSet where
  columnNames : List String
  columnTypes : List CType
  rows : List (List JSValue)
deriving DecidableEq, Repr

/-- `WaSQLiteQueryable.convertData` (wa-sqlite-adapter.ts, lines
195–216): with no result rows, keep the column names and take
`Object.values` of `getColumnTypeEnums` as the types; otherwise compute
the types the same way and convert every row with `mapRow` under those
types. -/
def convertData (columnNames : List String) (results : List (List JSValue)) :
    SqlResultSet :=
  if results = [] then
    { columnNames := columnNames,
      columnTypes := recordValues (getColumnTypeEnums columnNames results),
      rows := [] }
  else
    let columnTypes := recordValues (getColumnTypeEnums columnNames results)
    { columnNames := columnNames,
      columnTypes := columnTypes,
      rows := results.map (fun row => mapRow row columnTypes) }

/-! ## Theorems: transaction coordinator -/

/-- C1: starting from depth 0, with every engine exec succeeding, the
call sequence start–start–commit–commit returns `transactionDepth` to 0,
and so does start–start–commit–rollback. -/
theorem claimC1_depth_bookkeeping (engine : String → ExecResult)
    (hok : ∀ q, engine q = ExecResult.ok) :
    let s0 : AdapterState := { inTransaction := false, transactionDepth := 0 }
    let s1 := (startTransaction engine none s0).state
    let s2 := (startTransaction engine none s1).state
    let s3 := (commitTransaction engine s2).state
    (commitTransaction engine s3).state.transactionDepth = 0 ∧
      (rollbackTransaction engine s3).state.transactionDepth = 0 := by
  simp [startTransaction, startTransaction.startTransactionBody,
    commitTransaction, rollbackTransaction, hok]

/-- Witness for C1 at the all-successful engine. -/
theorem claimC1_witness :
    let engine : String → ExecResult := fun _ => ExecResult.ok
    let s0 : AdapterState := { inTransaction := false, transactionDepth := 0 }
    let s1 := (startTransaction engine none s0).state
    let s2 := (startTransaction engine none s1).state
    let s3 := (commitTransaction engine s2).state
    (commitTransaction engine s3).state.transactionDepth = 0 ∧
      (rollbackTransaction engine s3).state.transactionDepth = 0 :=
  claimC1_depth_bookkeeping (fun _ => ExecResult.ok) (fun _ => rfl)

/-- C2: a provided isolation level other than SERIALIZABLE makes
`startTransaction` throw a `DriverAdapterError` of kind
`InvalidIsolationLevel` with no engine call issued and the coordinator
state unchanged. -/
theorem claimC2_invalid_isolation_level (engine : String → ExecResult)
    (s : AdapterState) (lvl : IsolationLevel)
    (h : lvl ≠ IsolationLevel.serializable) :
    startTransaction engine (some lvl) s =
      { state := s, calls := [],
        thrown := some (TxError.adapterError "InvalidIsolationLevel") } := by
  simp [startTransaction, h]

/-- Witness for C2 at `READ COMMITTED`. -/
theorem claimC2_witness :
    startTransaction (fun _ => ExecResult.ok) (some IsolationLevel.readCommitted)
        { inTransaction := false, transactionDepth := 0 } =
      { state := { inTransaction := false, transactionDepth := 0 }, calls := [],
        thrown := some (TxError.adapterError "InvalidIsolationLevel") } :=
  claimC2_invalid_isolation_level (fun _ => ExecResult.ok)
    { inTransaction := false, transactionDepth := 0 }
    IsolationLevel.readCommitted (by decide)

/-- C3: at depth 1 `commitTransaction` issues exactly one engine call,
`COMMIT`; on success or on an error whose message includes
"no transaction is active" it resolves with depth 0 and
`inTransaction = false`; any other engine error is rethrown with the
state left unchanged. -/
theorem claimC3_commit_depth_one (engine : String → ExecResult)
    (s : AdapterState) (h : s.transactionDepth = 1) :
    (commitTransaction engine s).calls = ["COMMIT"] ∧
    (engine "COMMIT" = ExecResult.ok →
      commitTransaction engine s =
        { state := { inTransaction := false, transactionDepth := 0 },
          calls := ["COMMIT"], thrown := none }) ∧
    (∀ m, engine "COMMIT" = ExecResult.err m →
      jsIncludes m "no transaction is active" = true →
      commitTransaction engine s =
        { state := { inTransaction := false, transactionDepth := 0 },
          calls := ["COMMIT"], thrown := none }) ∧
    (∀ m, engine "COMMIT" = ExecResult.err m →
      jsIncludes m "no transaction is active" = false →
      commitTransaction engine s =
        { state := s, calls := ["COMMIT"],
          thrown := some (TxError.engineError m) }) := by
  refine ⟨?_, ?_, ?_, ?_⟩
  · cases heng : engine "COMMIT" with
    | ok => simp [commitTransaction, h, heng]
    | err m => by_cases hm : jsIncludes m "no transaction is active" <;>
        simp [commitTransaction, h, heng, hm]
  · intro heng; simp [commitTransaction, h, heng]
  · intro m heng hm; simp [commitTransaction, h, heng, hm]
  · intro m heng hm; simp [commitTransaction, h, heng, hm]

/-- Witness for C3 at the all-successful engine and depth 1. -/
theorem claimC3_witness :
    (commitTransaction (fun _ => ExecResult.ok)
      { inTransaction := true, transactionDepth := 1 }).calls = ["COMMIT"] ∧
    ((fun _ => ExecResult.ok : String → ExecResult) "COMMIT" = ExecResult.ok →
      commitTransaction (fun _ => ExecResult.ok)
          { inTransaction := true, transactionDepth := 1 } =
        { state := { inTransaction := false, transactionDepth := 0 },
          calls := ["COMMIT"], thrown := none }) ∧
    (∀ m, (fun _ => ExecResult.ok : String → ExecResult) "COMMIT" = ExecResult.err m →
      jsIncludes m "no transaction is active" = true →
      commitTransaction (fun _ => ExecResult.ok)
          { inTransaction := true, transactionDepth := 1 } =
        { state := { inTransaction := false, transactionDepth := 0 },
          calls := ["COMMIT"], thrown := none }) ∧
    (∀ m, (fun _ => ExecResult.ok : String → ExecResult) "COMMIT" = ExecResult.err m →
      jsIncludes m "no transaction is active" = false →
      commitTransaction (fun _ => ExecResult.ok)
          { inTransaction := true, transactionDepth := 1 } =
        { state := { inTransaction := true, transactionDepth := 1 },
          calls := ["COMMIT"], thrown := some (TxError.engineError m) }) :=
  claimC3_commit_depth_one (fun _ => ExecResult.ok)
    { inTransaction := true, transactionDepth := 1 } rfl

/-- The implicit coordinator invariant of C10. -/
def txInvariant (s : AdapterState) : Prop :=
  s.inTransaction = true ↔ 1 ≤ s.transactionDepth

/-- C10: every coordinator operation preserves
`inTransaction ↔ (transactionDepth ≥ 1)` (for any engine behaviour),
and at depth 0 `commitTransaction` and `rollbackTransaction` leave the
state unchanged (in particular the depth is never driven below 0). -/
theorem claimC10_invariant_preserved (engine : String → ExecResult)
    (s : AdapterState) (h : txInvariant s) :
    (∀ iso, txInvariant (startTransaction engine iso s).state) ∧
    txInvariant (commitTransaction engine s).state ∧
    txInvariant (rollbackTransaction engine s).state ∧
    txInvariant (dispose engine s).state ∧
    (s.transactionDepth = 0 →
      (commitTransaction engine s).state = s ∧
      (rollbackTransaction engine s).state = s) := by
  obtain ⟨it, d⟩ := s
  simp only [txInvariant] at h ⊢
  refine ⟨?_, ?_, ?_, ?_, ?_⟩
  · intro iso
    have hbody : (startTransaction.startTransactionBody engine ⟨it, d⟩).state.inTransaction
        = true ↔ 1 ≤ (startTransaction.startTransactionBody engine ⟨it, d⟩).state.transactionDepth := by
      cases it with
      | false =>
        cases hb : engine "BEGIN" with
        | ok => simp [startTransaction.startTransactionBody, hb]
        | err m => simpa [startTransaction.startTransactionBody, hb] using h
      | true =>
        simp only [startTransaction.startTransactionBody]
        cases engine ("SAVEPOINT " ++ ("prisma_savepoint_" ++ toString (d + 1))) with
        | ok => simp at h ⊢; omega
        | err m => simp at h ⊢; omega
    cases iso with
    | none => simpa [startTransaction] using hbody
    | some lvl =>
      by_cases hl : lvl = IsolationLevel.serializable
      · simpa [startTransaction, hl] using hbody
      · simpa [startTransaction, hl] using h
  · by_cases h1 : d = 1
    · cases hc : engine "COMMIT" with
      | ok => simp [commitTransaction, h1, hc]
      | err m =>
        by_cases hm : jsIncludes m "no transaction is active" <;>
          [ simp [commitTransaction, h1, hc, hm];
            simpa [commitTransaction, h1, hc, hm] using h ]
    · by_cases h2 : d > 1
      · cases hc : engine ("RELEASE SAVEPOINT " ++ ("prisma_savepoint_" ++ toString d)) with
        | ok => cases it <;> simp_all [commitTransaction] <;> omega
        | err m => cases it <;> simp_all [commitTransaction] <;> omega
      · simpa [commitTransaction, h1, h2] using h
  · by_cases h1 : d = 1
    · cases hc : engine "ROLLBACK" with
      | ok => simp [rollbackTransaction, h1, hc]
      | err m =>
        by_cases hm : jsIncludes m "no transaction is active" <;>
          [ simp [rollbackTransaction, h1, hc, hm];
            simpa [rollbackTransaction, h1, hc, hm] using h ]
    · by_cases h2 : d > 1
      · cases hc : engine ("ROLLBACK TO SAVEPOINT " ++ ("prisma_savepoint_" ++ toString d)) with
        | ok =>
          cases hc2 : engine ("RELEASE SAVEPOINT " ++ ("prisma_savepoint_" ++ toString d)) with
          | ok => cases it <;> simp_all [rollbackTransaction] <;> omega
          | err m => cases it <;> simp_all [rollbackTransaction] <;> omega
        | err m => cases it <;> simp_all [rollbackTransaction] <;> omega
      · simpa [rollbackTransaction, h1, h2] using h
  · cases it with
    | false => simpa [dispose] using h
    | true =>
      cases hc : engine "ROLLBACK" with
      | ok => simp [dispose, hc]
      | err m => simp [dispose, hc]
  · intro hd
    constructor
    · simp [commitTransaction, hd]
    · simp [rollbackTransaction, hd]

/-- Witness for C10 at the initial state and the all-successful engine. -/
theorem claimC10_witness :
    (∀ iso, txInvariant (startTransaction (fun _ => ExecResult.ok) iso
      { inTransaction := false, transactionDepth := 0 }).state) ∧
    txInvariant (commitTransaction (fun _ => ExecResult.ok)
      { inTransaction := false, transactionDepth := 0 }).state ∧
    txInvariant (rollbackTransaction (fun _ => ExecResult.ok)
      { inTransaction := false, transactionDepth := 0 }).state ∧
    txInvariant (dispose (fun _ => ExecResult.ok)
      { inTransaction := false, transactionDepth := 0 }).state ∧
    (({ inTransaction := false, transactionDepth := 0 } : AdapterState).transactionDepth = 0 →
      (commitTransaction (fun _ => ExecResult.ok)
        { inTransaction := false, transactionDepth := 0 }).state =
        { inTransaction := false, transactionDepth := 0 } ∧
      (rollbackTransaction (fun _ => ExecResult.ok)
        { inTransaction := false, transactionDepth := 0 }).state =
        { inTransaction := false, transactionDepth := 0 }) :=
  claimC10_invariant_preserved (fun _ => ExecResult.ok)
    { inTransaction := false, transactionDepth := 0 } (by simp [txInvariant])

/-! ## Theorems: statement handle -/

/-- C4: the statement flags computed by the `WaSQLiteStatement`
constructor have `reader = readonly = true` exactly when the trimmed,
upper-cased SQL text begins with one of SELECT, WITH, VALUES, PRAGMA,
and `reader = readonly = false` exactly when it begins with none of
them. -/
theorem claimC4_reader_classification (sql : String) :
    ((WaSQLiteStatement.mkFlags sql).reader = true ∧
        (WaSQLiteStatement.mkFlags sql).readonly = true ↔
      ∃ tok ∈ readerTokens, (sql.trim.toUpper).startsWith tok = true) ∧
    ((WaSQLiteStatement.mkFlags sql).reader = false ∧
        (WaSQLiteStatement.mkFlags sql).readonly = false ↔
      ¬ ∃ tok ∈ readerTokens, (sql.trim.toUpper).startsWith tok = true) := by
  have hex : (∃ tok ∈ readerTokens, (sql.trim.toUpper).startsWith tok = true) ↔
      ((sql.trim.toUpper).startsWith "SELECT" = true ∨
       (sql.trim.toUpper).startsWith "WITH" = true ∨
       (sql.trim.toUpper).startsWith "VALUES" = true ∨
       (sql.trim.toUpper).startsWith "PRAGMA" = true) := by
    simp [readerTokens]
  have hr : (WaSQLiteStatement.mkFlags sql).reader =
      ((sql.trim.toUpper).startsWith "SELECT" ||
       (sql.trim.toUpper).startsWith "WITH" ||
       (sql.trim.toUpper).startsWith "VALUES" ||
       (sql.trim.toUpper).startsWith "PRAGMA") := by
    simp only [WaSQLiteStatement.mkFlags]
  have hro : (WaSQLiteStatement.mkFlags sql).readonly =
      ((sql.trim.toUpper).startsWith "SELECT" ||
       (sql.trim.toUpper).startsWith "WITH" ||
       (sql.trim.toUpper).startsWith "VALUES" ||
       (sql.trim.toUpper).startsWith "PRAGMA") := by
    simp only [WaSQLiteStatement.mkFlags]
  simp only [hex, hr, hro]
  generalize (sql.trim.toUpper).startsWith "SELECT" = a
  generalize (sql.trim.toUpper).startsWith "WITH" = b
  generalize (sql.trim.toUpper).startsWith "VALUES" = c
  generalize (sql.trim.toUpper).startsWith "PRAGMA" = d
  cases a <;> cases b <;> cases c <;> cases d <;> simp

/-- C5: `get` returns `undefined` (not an error object and not a row)
when the first `step` yields `SQLITE_DONE`; when it yields a row, `get`
materializes a single result in the active mode — the first column's
value in pluck mode, the positional value array in raw mode, and the
column-name-keyed object otherwise. -/
theorem claimC5_get_semantics (m : StmtModes) (c : EngineCell)
    (cs : List EngineCell) :
    WaSQLiteStatement.get m none = GetResult.undef ∧
    (∀ kvs, GetResult.undef ≠ GetResult.objRow kvs) ∧
    (m.pluckMode = true →
      WaSQLiteStatement.get m (some (c :: cs)) =
        GetResult.plucked (WaSQLiteStatement.getColumnValue c)) ∧
    (m.pluckMode = false → m.rawMode = true →
      WaSQLiteStatement.get m (some (c :: cs)) =
        GetResult.rawRow ((c :: cs).map WaSQLiteStatement.getColumnValue)) ∧
    (m.pluckMode = false → m.rawMode = false →
      WaSQLiteStatement.get m (some (c :: cs)) =
        GetResult.objRow (jsObjOfRow (c :: cs))) := by
  refine ⟨rfl, ?_, ?_, ?_, ?_⟩
  · intro kvs
    simp
  · intro hp; simp [WaSQLiteStatement.get, hp]
  · intro hp hr; simp [WaSQLiteStatement.get, hp, hr]
  · intro hp hr; simp [WaSQLiteStatement.get, hp, hr]

/-- Witness for C5 in default (object) mode on a one-column TEXT row. -/
theorem claimC5_witness :
    WaSQLiteStatement.get ⟨false, false, false⟩ none = GetResult.undef ∧
    (∀ kvs, GetResult.undef ≠ GetResult.objRow kvs) ∧
    ((⟨false, false, false⟩ : StmtModes).pluckMode = true →
      WaSQLiteStatement.get ⟨false, false, false⟩
          (some (⟨"a", 3, 0, 0, "x", []⟩ :: [])) =
        GetResult.plucked (WaSQLiteStatement.getColumnValue ⟨"a", 3, 0, 0, "x", []⟩)) ∧
    ((⟨false, false, false⟩ : StmtModes).pluckMode = false →
      (⟨false, false, false⟩ : StmtModes).rawMode = true →
      WaSQLiteStatement.get ⟨false, false, false⟩
          (some (⟨"a", 3, 0, 0, "x", []⟩ :: [])) =
        GetResult.rawRow ((⟨"a", 3, 0, 0, "x", []⟩ :: []).map
          WaSQLiteStatement.getColumnValue)) ∧
    ((⟨false, false, false⟩ : StmtModes).pluckMode = false →
      (⟨false, false, false⟩ : StmtModes).rawMode = false →
      WaSQLiteStatement.get ⟨false, false, false⟩
          (some (⟨"a", 3, 0, 0, "x", []⟩ :: [])) =
        GetResult.objRow (jsObjOfRow (⟨"a", 3, 0, 0, "x", []⟩ :: []))) :=
  claimC5_get_semantics ⟨false, false, false⟩ ⟨"a", 3, 0, 0, "x", []⟩ []

/-- C8: `WaSQLiteStatement.finalize` is idempotent — a second call issues
no native call and leaves the resource state unchanged, and across the
two calls the native `finalize` and `str_finish` are each invoked at
most once. -/
theorem claimC8_finalize_idempotent (r : StmtResources) :
    (WaSQLiteStatement.finalize (WaSQLiteStatement.finalize r).1).2 = [] ∧
    (WaSQLiteStatement.finalize (WaSQLiteStatement.finalize r).1).1 =
      (WaSQLiteStatement.finalize r).1 ∧
    ((WaSQLiteStatement.finalize r).2 ++
        (WaSQLiteStatement.finalize (WaSQLiteStatement.finalize r).1).2).count
      NativeCall.finalizeCall ≤ 1 ∧
    ((WaSQLiteStatement.finalize r).2 ++
        (WaSQLiteStatement.finalize (WaSQLiteStatement.finalize r).1).2).count
      NativeCall.strFinishCall ≤ 1 := by
  obtain ⟨a, b⟩ := r
  cases a <;> cases b <;> decide

/-! ## Theorems: safe-integers mode and resource release -/

/-- C6 (code bug): with safe-integers mode enabled (`safeIntegers()`
called with no argument), reading an INTEGER column whose value
9007199254740993 exceeds `Number.MAX_SAFE_INTEGER` (9007199254740991)
through `get` yields a plain JS number, never a bigint:
`getColumnValue` ignores `safeIntegersMode` entirely (the promotion
logic sits in the dead `convertValue` helper, which no row path calls
and which references an undefined variable `i`). -/
theorem claimC6_safe_integers_not_applied :
    (WaSQLiteStatement.safeIntegers ⟨false, false, false⟩ none).safeIntegersMode = true ∧
    (9007199254740991 : ℚ) < ((9007199254740993 : ℤ) : ℚ) ∧
    WaSQLiteStatement.get (WaSQLiteStatement.safeIntegers ⟨false, false, false⟩ none)
        (some [⟨"n", 1, 9007199254740993, 0, "", []⟩]) =
      GetResult.objRow [("n", JSValue.num 9007199254740993)] ∧
    ∀ z : ℤ, WaSQLiteStatement.get (WaSQLiteStatement.safeIntegers ⟨false, false, false⟩ none)
        (some [⟨"n", 1, 9007199254740993, 0, "", []⟩]) ≠
      GetResult.objRow [("n", JSValue.bigint z)] := by
  have hval : WaSQLiteStatement.get
      (WaSQLiteStatement.safeIntegers ⟨false, false, false⟩ none)
      (some [⟨"n", 1, 9007199254740993, 0, "", []⟩]) =
      GetResult.objRow [("n", JSValue.num 9007199254740993)] := by
    simp [WaSQLiteStatement.get, WaSQLiteStatement.safeIntegers, jsObjOfRow,
      jsObjSet, WaSQLiteStatement.getColumnValue]
  refine ⟨rfl, by norm_num, hval, ?_⟩
  intro z h
  rw [hval] at h
  simp at h

/-- Every call `bindPhase` issues is a bind call. -/
theorem bindPhase_calls_bindOnly (f : ℕ → Option String) :
    ∀ start n, ∀ c ∈ (bindPhase f start n).2, ∃ i, c = NativeCall.bindCall i := by
  intro start n
  induction n generalizing start with
  | zero => simp [bindPhase]
  | succ k ih =>
    intro c hc
    simp only [bindPhase] at hc
    cases hf : f start with
    | some msg =>
      rw [hf] at hc
      simp at hc
      exact ⟨start, hc⟩
    | none =>
      rw [hf] at hc
      simp at hc
      rcases hc with rfl | hc
      · exact ⟨start, rfl⟩
      · exact ih (start + 1) c hc

/-- Every call `queryStepLoop` issues is a step call. -/
theorem queryStepLoop_calls_stepOnly (items : List StepItem) :
    ∀ c ∈ (queryStepLoop items).2.1, c = NativeCall.stepCall := by
  induction items with
  | nil => simp [queryStepLoop]
  | cons hd tl ih =>
    cases hd with
    | rowItem cells =>
      intro c hc
      simp only [queryStepLoop] at hc
      simp at hc
      rcases hc with rfl | hc
      · rfl
      · exact ih c hc
    | doneItem => simp [queryStepLoop]
    | errItem code => simp [queryStepLoop]

/-- The `try` body of `performIOModel`'s parameterised path issues neither
`finalize` nor `str_finish`; it leaves `stmt` non-null exactly when the
prepare succeeded and `str` always non-null. -/
theorem performIOBody_resources (eng : PerfEngine) (nParams : ℕ) (executeRaw : Bool) :
    (performIOBody eng nParams executeRaw).calls.count NativeCall.finalizeCall = 0 ∧
    (performIOBody eng nParams executeRaw).calls.count NativeCall.strFinishCall = 0 ∧
    (performIOBody eng nParams executeRaw).stmtNonNull = eng.prepareOk ∧
    (performIOBody eng nParams executeRaw).strNonNull = true := by
  have hbf : NativeCall.finalizeCall ∉ (bindPhase eng.bindOutcome 1 nParams).2 := by
    intro hmem
    rcases bindPhase_calls_bindOnly eng.bindOutcome 1 nParams _ hmem with ⟨i, hi⟩
    cases hi
  have hbs : NativeCall.strFinishCall ∉ (bindPhase eng.bindOutcome 1 nParams).2 := by
    intro hmem
    rcases bindPhase_calls_bindOnly eng.bindOutcome 1 nParams _ hmem with ⟨i, hi⟩
    cases hi
  have hqf : NativeCall.finalizeCall ∉ (queryStepLoop eng.steps).2.1 := by
    intro hmem
    cases queryStepLoop_calls_stepOnly eng.steps _ hmem
  have hqs : NativeCall.strFinishCall ∉ (queryStepLoop eng.steps).2.1 := by
    intro hmem
    cases queryStepLoop_calls_stepOnly eng.steps _ hmem
  cases hp : eng.prepareOk with
  | false => simp [performIOBody, hp]
  | true =>
    cases hb : (bindPhase eng.bindOutcome 1 nParams).1 with
    | some msg =>
      simp [performIOBody, hp, hb, List.count_append,
        List.count_eq_zero.mpr hbf, List.count_eq_zero.mpr hbs]
    | none =>
      cases executeRaw with
      | true =>
        rcases hst : eng.steps with _ | ⟨hd, tl⟩
        · simp [performIOBody, hp, hb, hst, List.count_append,
            List.count_eq_zero.mpr hbf, List.count_eq_zero.mpr hbs]
        · cases hd <;>
            simp [performIOBody, hp, hb, hst, List.count_append,
              List.count_eq_zero.mpr hbf, List.count_eq_zero.mpr hbs]
      | false =>
        simp [performIOBody, hp, hb, List.count_append,
          List.count_eq_zero.mpr hbf, List.count_eq_zero.mpr hbs,
          List.count_eq_zero.mpr hqf, List.count_eq_zero.mpr hqs]

/-- C7: on every exit path of `performIOModel`'s parameterised path —
successful completion, a step error, or a bind error — the SQL string
buffer is released by exactly one `str_finish` and the prepared
statement by exactly one `finalize` whenever it was acquired (no
`finalize` is issued when `prepare_v2` produced no statement, the only
case in which none was acquired). -/
theorem claimC7_resources_released (eng : PerfEngine) (nParams : ℕ)
    (executeRaw : Bool) :
    (performIOModel eng nParams executeRaw).2.count NativeCall.strFinishCall = 1 ∧
    (performIOModel eng nParams executeRaw).2.count NativeCall.finalizeCall =
      (if eng.prepareOk = true then 1 else 0) := by
  obtain ⟨hf, hs, hstmt, hstr⟩ := performIOBody_resources eng nParams executeRaw
  constructor
  · cases hp : eng.prepareOk <;>
      simp [performIOModel, List.count_append, hs, hf, hstmt, hstr, hp]
  · cases hp : eng.prepareOk <;>
      simp [performIOModel, List.count_append, hs, hf, hstmt, hstr, hp]

/-! ## Theorems: result-set conversion -/

/-- C9 counterexample: with duplicate column names `["a", "a"]` and first
row `[1, "x"]`, the record built by `getColumnTypeEnums` collapses both
columns onto one key, so `Object.values` yields `[Text]` — not the
`[Int32, Text]` the claim's per-column inference rule (integer number →
Int32, string → Text) demands. -/
theorem claimC9_counterexample :
    (convertData ["a", "a"] [[JSValue.num 1, JSValue.str "x"]]).columnTypes
        = [CType.text] ∧
    (convertData ["a", "a"] [[JSValue.num 1, JSValue.str "x"]]).columnTypes
        ≠ [CType.int32, CType.text] := by
  constructor <;> decide

/-- Folding JS-record assignment over pairwise-distinct keys that are all
fresh for the accumulator just appends the pairs in order. -/
theorem foldl_jsRecordSet_of_nodup :
    ∀ (ps r : List (String × CType)),
      (ps.map Prod.fst).Nodup →
      (∀ k ∈ ps.map Prod.fst, r.any (fun p => p.1 == k) = false) →
      ps.foldl (fun acc p => jsRecordSet acc p.1 p.2) r = r ++ ps := by
  intro ps
  induction ps with
  | nil => intro r _ _; simp
  | cons hd tl ih =>
    intro r hnd hfresh
    have hk : r.any (fun p => p.1 == hd.1) = false := hfresh hd.1 (by simp)
    have hcons : (hd.1 :: tl.map Prod.fst).Nodup := by simpa using hnd
    have hstep : jsRecordSet r hd.1 hd.2 = r ++ [(hd.1, hd.2)] := by
      simp [jsRecordSet, hk]
    have hnd2 : (tl.map Prod.fst).Nodup := (List.nodup_cons.mp hcons).2
    have hfresh2 : ∀ k ∈ tl.map Prod.fst,
        (r ++ [(hd.1, hd.2)]).any (fun p => p.1 == k) = false := by
      intro k2 hk2
      have h1 : r.any (fun p => p.1 == k2) = false :=
        hfresh k2 (by simp [hk2])
      have h2 : hd.1 ≠ k2 := by
        rintro rfl
        exact (List.nodup_cons.mp hcons).1 hk2
      simp [List.any_append, h1, h2]
    rw [List.foldl_cons, hstep, ih (r ++ [(hd.1, hd.2)]) hnd2 hfresh2]
    simp

/-- C9 (amended): provided the statement's column names are pairwise
distinct, `convertData` preserves the column names; with zero rows every
column type is Text; with at least one row each column's type tag is
inferred from the first row's value at that column's index, and that
type-tag list is applied uniformly (via `mapRow`) to every row. -/
theorem claimC9_amended_column_types (columnNames : List String)
    (results : List (List JSValue)) (hnd : columnNames.Nodup) :
    (convertData columnNames results).columnNames = columnNames ∧
    (results = [] →
      (convertData columnNames results).columnTypes =
        columnNames.map (fun _ => CType.text) ∧
      (convertData columnNames results).rows = []) ∧
    (∀ r rs, results = r :: rs →
      (convertData columnNames results).columnTypes =
        columnNames.enum.map
          (fun p => inferJsType ((r.get? p.1).getD JSValue.undef)) ∧
      (convertData columnNames results).rows =
        results.map (fun row =>
          mapRow row ((convertData columnNames results).columnTypes))) := by
  refine ⟨?_, ?_, ?_⟩
  · by_cases hres : results = [] <;> simp [convertData, hres]
  · rintro rfl
    have key : getColumnTypeEnums columnNames [] =
        columnNames.map (fun n => (n, CType.text)) := by
      have hcomp0 : (Prod.fst ∘ fun n : String => (n, CType.text)) = id := by
        funext n; rfl
      have h := foldl_jsRecordSet_of_nodup
        (columnNames.map (fun n => (n, CType.text))) []
        (by rw [List.map_map, hcomp0, List.map_id]; exact hnd) (by simp)
      simpa [getColumnTypeEnums, List.foldl_map] using h
    have hcomp1 : ((fun p : String × CType => p.2) ∘ fun n : String => (n, CType.text))
        = fun _ => CType.text := by
      funext n; rfl
    constructor
    · simp [convertData, recordValues, key, List.map_map, hcomp1]
    · simp [convertData]
  · rintro r rs rfl
    have hmapfst : (columnNames.enum.map
        (fun p => (p.2, inferJsType ((r.get? p.1).getD JSValue.undef)))).map Prod.fst
        = columnNames := by
      rw [List.map_map]
      have hcomp : (Prod.fst ∘ fun p : ℕ × String =>
          (p.2, inferJsType ((r.get? p.1).getD JSValue.undef))) = Prod.snd := by
        funext p; rfl
      rw [hcomp, List.enum_map_snd]
    have key : getColumnTypeEnums columnNames (r :: rs) =
        columnNames.enum.map
          (fun p => (p.2, inferJsType ((r.get? p.1).getD JSValue.undef))) := by
      have h := foldl_jsRecordSet_of_nodup
        (columnNames.enum.map
          (fun p => (p.2, inferJsType ((r.get? p.1).getD JSValue.undef)))) []
        (by rw [hmapfst]; exact hnd) (by simp)
      simpa [getColumnTypeEnums, List.foldl_map] using h
    constructor
    · simp [convertData, recordValues, key, List.map_map, Function.comp]
    · simp [convertData]

/-- Witness for the amended C9 on distinct column names, both with a row
and (degenerately) via the zero-row implication being dischargeable. -/
theorem claimC9_witness :
    (convertData ["id"] [[JSValue.num 1]]).columnNames = ["id"] ∧
    ([[JSValue.num 1]] = ([] : List (List JSValue)) →
      (convertData ["id"] [[JSValue.num 1]]).columnTypes =
        (["id"] : List String).map (fun _ => CType.text) ∧
      (convertData ["id"] [[JSValue.num 1]]).rows = []) ∧
    (∀ r rs, [[JSValue.num 1]] = r :: rs →
      (convertData ["id"] [[JSValue.num 1]]).columnTypes =
        (["id"] : List String).enum.map
          (fun p => inferJsType ((r.get? p.1).getD JSValue.undef)) ∧
      (convertData ["id"] [[JSValue.num 1]]).rows =
        [[JSValue.num 1]].map (fun row =>
          mapRow row ((convertData ["id"] [[JSValue.num 1]]).columnTypes))) :=
  claimC9_amended_column_types ["id"] [[JSValue.num 1]] (by simp)
